import Mathlib

/-
Verification of the WorkDay Zen timer core (React/TypeScript).

Shallow embedding of the timer state machine from `App.tsx`:
the `TimerStatus` / `TimerState` types (types.ts), the operations
`reset`, `startTimer`, `saveDuration`, `checkDayChange`, the
`useState` initializer that recovers persisted state at startup, the
activity-detection effect, and `getWorkdayTip` (geminiService.ts,
both versions present in the repository).

Timestamps and millisecond durations are modelled as `Int`
(`Date.now()` returns integral milliseconds).  JavaScript truthiness
of nullable numbers and strings is modelled explicitly: `null`,
`0` and `""` are falsy.  Asynchronous external outcomes (the Gemini
call, JSON parsing of persisted state) are modelled as `Except`
values supplied as parameters.
-/

set_option maxRecDepth 4000

namespace WorkDayZen

/-- Timer status, from the `TimerStatus` enum in `types.ts`. -/
inductive TimerStatus where
  | IDLE
  | LISTENING
  | RUNNING
  | FINISHED
  deriving DecidableEq

/-- Timer state, from the `TimerState` interface in `types.ts`:
`startTime` and `endTime` are nullable millisecond timestamps. -/
structure TimerState where
  startTime : Option Int
  endTime : Option Int
  status : TimerStatus
  deriving DecidableEq

/-- Productivity tip, from the `ProductivityTip` interface in `types.ts`. -/
structure ProductivityTip where
  title : String
  advice : String
  deriving DecidableEq

/-- JavaScript truthiness of a nullable number: `null` and `0` are falsy. -/
def numTruthy : Option Int → Bool
  | some v => v != 0
  | none => false

/-- JavaScript truthiness of a nullable string: `null` and `""` are falsy. -/
def strTruthy : Option String → Bool
  | some s => s != ""
  | none => false

/-- The in-memory state of the `App` component that the verified
operations read or write: the `totalDurationMs`, `timer`, `timeLeft`,
wake-lock (`wakeLockRef.current` held / `wakeLockActive`),
`notificationsEnabled`, `showSettings`, `inputHours`, `inputMinutes`
React states, plus the persisted `zen_last_active_day` storage key. -/
structure AppState where
  totalDurationMs : Int
  timer : TimerState
  timeLeft : Int
  wakeLockHeld : Bool
  wakeLockActive : Bool
  notificationsEnabled : Bool
  showSettings : Bool
  inputHours : Int
  inputMinutes : Int
  lastActiveDay : Option String
  deriving DecidableEq

/-- `releaseWakeLock` (App.tsx lines 128-134): when a wake-lock handle is
held (`wakeLockRef.current` non-null) it is released, the ref cleared and
`wakeLockActive` set to false; otherwise nothing happens. -/
def releaseWakeLock (s : AppState) : AppState :=
  if s.wakeLockHeld = true then
    { s with wakeLockHeld := false, wakeLockActive := false }
  else s

/-- `reset` (App.tsx lines 268-272): sets the timer to the Idle shape,
zeroes `timeLeft`, and releases any held wake lock. -/
def reset (s : AppState) : AppState :=
  releaseWakeLock { s with timer := ⟨none, none, TimerStatus.IDLE⟩, timeLeft := 0 }

/-- `checkDayChange` (App.tsx lines 159-168): reads the persisted
`zen_last_active_day`; when it is truthy and differs from today's date
string, writes today and invokes `reset`. -/
def checkDayChange (s : AppState) (today : String) : AppState :=
  if strTruthy s.lastActiveDay = true ∧ s.lastActiveDay ≠ some today then
    reset { s with lastActiveDay := some today }
  else s

/-- The duration computed by `saveDuration` (App.tsx line 257):
`inputHours * 3600000 + inputMinutes * 60000` milliseconds. -/
def newDurationMs (s : AppState) : Int :=
  s.inputHours * 60 * 60 * 1000 + s.inputMinutes * 60 * 1000

/-- `saveDuration` (App.tsx lines 256-266): when the computed duration is
positive, stores it as `totalDurationMs` and closes the settings modal;
additionally, when the timer is `RUNNING` and `timer.startTime` is truthy,
rewrites only `timer.endTime` to `startTime + newMs`.  A non-positive
computed duration changes nothing.  The function is total: no exception
escapes it. -/
def saveDuration (s : AppState) : AppState :=
  if 0 < newDurationMs s then
    if s.timer.status = TimerStatus.RUNNING ∧ numTruthy s.timer.startTime = true then
      { s with totalDurationMs := newDurationMs s, showSettings := false,
               timer := { s.timer with
                 endTime := s.timer.startTime.map (fun v => v + newDurationMs s) } }
    else
      { s with totalDurationMs := newDurationMs s, showSettings := false }
  else s

/-- Observable events of one `startTimer` turn, in dispatch order:
the wake-lock request, the session-start notification, the React commit
of the `setTimer` update, and the `localStorage` write performed by the
persistence effect (App.tsx lines 57-59). -/
inductive Ev where
  | wakeLockRequest
  | notify (title : String)
  | stateCommit
  | persistWrite
  deriving DecidableEq

/-- The `TimerState` that `startTimer` (App.tsx lines 174-177) enqueues:
`startTime = now`, `endTime = now + totalDurationMs`, status `RUNNING`. -/
def startTimerPending (s : AppState) (now : Int) : TimerState :=
  ⟨some now, some (now + s.totalDurationMs), TimerStatus.RUNNING⟩

/-- The side effects dispatched synchronously inside the `startTimer`
handler (App.tsx lines 178-185): the wake-lock request, then the
session-start notification when `notificationsEnabled` holds. -/
def startTimerEvents (s : AppState) : List Ev :=
  Ev.wakeLockRequest ::
    (if s.notificationsEnabled = true then [Ev.notify "WorkDay Zen Started"] else [])

/-- One complete `startTimer` turn under React's event model: the handler
body runs to completion first (dispatching `startTimerEvents`), then React
commits the state update enqueued by `setTimer`, and only then does the
persistence effect on `[timer]` (App.tsx lines 57-59) write the new
`TimerState` to storage. -/
def startTimerTurn (s : AppState) (now : Int) : AppState × List Ev :=
  ({ s with timer := startTimerPending s now },
   startTimerEvents s ++ [Ev.stateCommit, Ev.persistWrite])

/-- The committed state after a `startTimer` turn. -/
def applyStartTimer (s : AppState) (now : Int) : AppState :=
  (startTimerTurn s now).1

/-- The event trace of a `startTimer` turn. -/
def startTimerTrace (s : AppState) (now : Int) : List Ev :=
  (startTimerTurn s now).2

/-- The value produced by the `useState` initializer for `timer`
(App.tsx lines 13-34): the resulting `TimerState` together with the value
written to `zen_last_active_day`, when one is written. -/
structure InitOutcome where
  timer : TimerState
  lastDayWrite : Option String
  deriving DecidableEq

/-- The `useState` initializer for `timer` (App.tsx lines 13-34),
evaluated synchronously on the first render, before any state is exposed.
`saved` is the stored `zen_timer_state` when truthy, with `JSON.parse`
modelled as an `Except`: `Except.error` means the parse throws, in which
case the initializer itself throws (there is no surrounding try/catch),
modelled as the whole function returning `Except.error`.  The day
comparison (lines 19-22) runs before the stored state is touched.  A
parsed state whose `endTime` is truthy and already strictly passed is
replaced by the Finished shape (lines 26-28). -/
def initTimer (saved : Option (Except Unit TimerState)) (lastDate : Option String)
    (today : String) (now : Int) : Except Unit InitOutcome :=
  if strTruthy lastDate = true ∧ lastDate ≠ some today then
    Except.ok ⟨⟨none, none, TimerStatus.IDLE⟩, some today⟩
  else
    match saved with
    | some (Except.error _) => Except.error ()
    | some (Except.ok parsed) =>
        match parsed.endTime with
        | some e =>
            if e ≠ 0 ∧ e < now then
              Except.ok ⟨⟨none, none, TimerStatus.FINISHED⟩, none⟩
            else
              Except.ok ⟨parsed, none⟩
        | none => Except.ok ⟨parsed, none⟩
    | none => Except.ok ⟨⟨none, none, TimerStatus.IDLE⟩, some today⟩

/-- The four raw input event classes the activity-detection effect
subscribes to (App.tsx lines 198-201). -/
inductive ActivityClass where
  | mousemove
  | keydown
  | mousedown
  | touchstart
  deriving DecidableEq

/-- State of the activity-detection effect (App.tsx lines 189-209):
whether `handleActivity` is currently registered on the four event
classes (they are added and removed together), the component state, and
a counter of how many times `startTimer` has been invoked. -/
structure ListenerState where
  attached : Bool
  app : AppState
  startCount : Nat
  deriving DecidableEq

/-- `handleActivity` (App.tsx lines 191-197): invokes `startTimer` and
synchronously removes the listener from all four event classes. -/
def handleActivity (ls : ListenerState) (now : Int) : ListenerState :=
  { attached := false
    app := applyStartTimer ls.app now
    startCount := ls.startCount + 1 }

/-- Delivery of one raw input event `(class, timestamp)`: the handler
runs only while it is still registered; after the synchronous removal
inside `handleActivity`, later events find no listener and are no-ops. -/
def dispatchActivity (ls : ListenerState) (ev : ActivityClass × Int) : ListenerState :=
  if ls.attached = true then handleActivity ls ev.2 else ls

/-- Sequential delivery of a list of raw input events, one browser task
each (the event loop is single-threaded). -/
def dispatchAll (ls : ListenerState) : List (ActivityClass × Int) → ListenerState
  | [] => ls
  | ev :: rest => dispatchAll (dispatchActivity ls ev) rest

/-- The fixed fallback tip returned by both versions of `getWorkdayTip`
when the Gemini call or the parse of its response fails
(geminiService.ts, catch branch). -/
def fallbackTip : ProductivityTip :=
  ⟨"Stay Focused", "Remember to take short breaks and stay hydrated throughout your journey."⟩

/-- The tip returned by the second version of `getWorkdayTip` when no
API key is configured (geminiService.ts lines 41-46). -/
def noKeyTip : ProductivityTip :=
  ⟨"Ready to Work?", "Start your timer and stay focused on your goals today."⟩

/-- First version of `getWorkdayTip` (geminiService.ts lines 4-33).
The remaining-hours argument only parametrizes the request prompt, which
is abstracted into `callResult`: the combined outcome of the
`generateContent` call and the `JSON.parse` of its response text.  Any
failure inside the try block yields the fixed fallback. -/
def getWorkdayTipV1 (callResult : Except Unit ProductivityTip) : ProductivityTip :=
  match callResult with
  | Except.ok t => t
  | Except.error _ => fallbackTip

/-- Second version of `getWorkdayTip` (geminiService.ts lines 38-76):
the API key defaults to `""` through the falsy-coalescing chain; an empty
key short-circuits to `noKeyTip` without calling the external service;
otherwise any failure of the call yields the fixed fallback. -/
def getWorkdayTipV2 (apiKey : String) (callResult : Except Unit ProductivityTip) :
    ProductivityTip :=
  if apiKey = "" then noKeyTip
  else
    match callResult with
    | Except.ok t => t
    | Except.error _ => fallbackTip

/-! ## Shared helper lemmas -/

theorem releaseWakeLock_timer (s : AppState) : (releaseWakeLock s).timer = s.timer := by
  unfold releaseWakeLock
  split <;> rfl

theorem releaseWakeLock_lastActiveDay (s : AppState) :
    (releaseWakeLock s).lastActiveDay = s.lastActiveDay := by
  unfold releaseWakeLock
  split <;> rfl

theorem releaseWakeLock_held (s : AppState) : (releaseWakeLock s).wakeLockHeld = false := by
  unfold releaseWakeLock
  split
  · rfl
  · next h => simpa using h

theorem reset_timer (s : AppState) :
    (reset s).timer = ⟨none, none, TimerStatus.IDLE⟩ := by
  unfold reset
  rw [releaseWakeLock_timer]

theorem reset_lastActiveDay (s : AppState) :
    (reset s).lastActiveDay = s.lastActiveDay := by
  unfold reset
  rw [releaseWakeLock_lastActiveDay]

theorem reset_held (s : AppState) : (reset s).wakeLockHeld = false := by
  unfold reset
  exact releaseWakeLock_held _

theorem reset_idem (s : AppState) : reset (reset s) = reset s := by
  obtain ⟨d, t, tl, held, act, ne, ss, ih, im, lad⟩ := s
  cases held <;> simp [reset, releaseWakeLock]

/-! ## C1 -/

/-- C1: invoking `reset` from any state yields exactly
`{startTime: null, endTime: null, status: Idle}` and releases any held
wake lock; `reset` is idempotent. -/
theorem reset_yields_idle_and_idempotent (s : AppState) :
    (reset s).timer = ⟨none, none, TimerStatus.IDLE⟩
      ∧ (reset s).wakeLockHeld = false
      ∧ reset (reset s) = reset s :=
  ⟨reset_timer s, reset_held s, reset_idem s⟩

/-! ## C3 -/

/-- C3: when the persisted `zen_last_active_day` is set (truthy) and
differs from the current calendar day, the day-rollover check forces the
timer to the Idle shape from any status — including `RUNNING` with an
unexpired `endTime` — and updates `zen_last_active_day` to the current
day; and the `useState` initializer at process start performs the same
comparison first, producing the Idle shape and the day update regardless
of the stored `zen_timer_state` and the current time. -/
theorem day_rollover_forces_idle (s : AppState) (today d : String)
    (saved : Option (Except Unit TimerState)) (now : Int)
    (hd : s.lastActiveDay = some d) (hne : d ≠ "") (hdiff : d ≠ today) :
    (checkDayChange s today).timer = ⟨none, none, TimerStatus.IDLE⟩
    ∧ (checkDayChange s today).lastActiveDay = some today
    ∧ initTimer saved (some d) today now
        = Except.ok ⟨⟨none, none, TimerStatus.IDLE⟩, some today⟩ := by
  have hcond : strTruthy s.lastActiveDay = true ∧ s.lastActiveDay ≠ some today := by
    rw [hd]
    exact ⟨by simpa [strTruthy] using hne, by simpa using hdiff⟩
  have hc : checkDayChange s today = reset { s with lastActiveDay := some today } := by
    unfold checkDayChange
    rw [if_pos hcond]
  refine ⟨?_, ?_, ?_⟩
  · rw [hc, reset_timer]
  · rw [hc, reset_lastActiveDay]
  · unfold initTimer
    rw [if_pos ⟨by simpa [strTruthy] using hne, by simpa using hdiff⟩]

/-- C3 witness: a concrete `RUNNING` state with an unexpired `endTime`
on a stored day different from today is forced to Idle and the day
marker is updated; the startup initializer does the same. -/
theorem day_rollover_forces_idle_wit :
    (checkDayChange
        ⟨28800000, ⟨some 1000, some 28801000, TimerStatus.RUNNING⟩, 500, true, true,
          true, false, 8, 0, some "Mon Jan 01 2024"⟩ "Tue Jan 02 2024").timer
      = ⟨none, none, TimerStatus.IDLE⟩
    ∧ (checkDayChange
        ⟨28800000, ⟨some 1000, some 28801000, TimerStatus.RUNNING⟩, 500, true, true,
          true, false, 8, 0, some "Mon Jan 01 2024"⟩ "Tue Jan 02 2024").lastActiveDay
      = some "Tue Jan 02 2024"
    ∧ initTimer (some (Except.ok ⟨some 1000, some 28801000, TimerStatus.RUNNING⟩))
        (some "Mon Jan 01 2024") "Tue Jan 02 2024" 2000
      = Except.ok ⟨⟨none, none, TimerStatus.IDLE⟩, some "Tue Jan 02 2024"⟩ :=
  day_rollover_forces_idle
    ⟨28800000, ⟨some 1000, some 28801000, TimerStatus.RUNNING⟩, 500, true, true,
      true, false, 8, 0, some "Mon Jan 01 2024"⟩
    "Tue Jan 02 2024" "Mon Jan 01 2024"
    (some (Except.ok ⟨some 1000, some 28801000, TimerStatus.RUNNING⟩)) 2000
    rfl (by decide) (by decide)

/-! ## C7 -/

/-- C7: invoking `saveDuration` when the computed duration
`inputHours * 3600000 + inputMinutes * 60000` is non-positive leaves the
whole component state — the `TimerState` and the configured
`totalDurationMs` included — unchanged; `saveDuration` is a total
function, so no exception propagates. -/
theorem saveDuration_nonpositive_noop (s : AppState)
    (h : newDurationMs s ≤ 0) :
    saveDuration s = s := by
  unfold saveDuration
  rw [if_neg (not_lt.mpr h)]

/-- C7 witness: inputs of 0 hours and 0 minutes compute a duration of
0 ms and `saveDuration` changes nothing. -/
theorem saveDuration_nonpositive_noop_wit :
    saveDuration
        ⟨28800000, ⟨none, none, TimerStatus.IDLE⟩, 0, false, false, false, true, 0, 0, none⟩
      = ⟨28800000, ⟨none, none, TimerStatus.IDLE⟩, 0, false, false, false, true, 0, 0, none⟩ :=
  saveDuration_nonpositive_noop
    ⟨28800000, ⟨none, none, TimerStatus.IDLE⟩, 0, false, false, false, true, 0, 0, none⟩
    (by decide)

/-! ## C2 -/

/-- The Running-duration invariant: whenever the status is `RUNNING`,
`startTime` is a truthy (positive) timestamp and
`endTime = startTime + totalDurationMs`. -/
def runningInv (s : AppState) : Prop :=
  s.timer.status = TimerStatus.RUNNING →
    ∃ st, 0 < st ∧ s.timer.startTime = some st
      ∧ s.timer.endTime = some (st + s.totalDurationMs)

theorem saveDuration_startTime (s : AppState) :
    (saveDuration s).timer.startTime = s.timer.startTime := by
  unfold saveDuration
  split
  · split <;> rfl
  · rfl

theorem saveDuration_status (s : AppState) :
    (saveDuration s).timer.status = s.timer.status := by
  unfold saveDuration
  split
  · split <;> rfl
  · rfl

theorem saveDuration_runningInv (s : AppState) (hinv : runningInv s) :
    runningInv (saveDuration s) := by
  intro hrun
  rw [saveDuration_status] at hrun
  obtain ⟨st, hst, hstart, hend⟩ := hinv hrun
  have htruthy : numTruthy s.timer.startTime = true := by
    rw [hstart]
    simpa [numTruthy] using ne_of_gt hst
  unfold saveDuration
  by_cases hpos : 0 < newDurationMs s
  · rw [if_pos hpos, if_pos ⟨hrun, htruthy⟩]
    exact ⟨st, hst, by simpa using hstart, by rw [hstart]; rfl⟩
  · rw [if_neg hpos]
    exact ⟨st, hst, hstart, hend⟩

/-- C2: at the moment of the transition into `RUNNING` performed by
`startTimer` at a positive wall-clock time `now`, the committed timer has
`startTime = now`, `endTime = now + totalDurationMs` (so
`endTime - startTime = totalDurationMs`), and the Running-duration
invariant holds; the invariant is preserved by any `saveDuration`
(reconfigure) call, which recomputes `endTime` from the unchanged
`startTime` and never rewrites `startTime`. -/
theorem running_duration_invariant (s s2 : AppState) (now : Int)
    (hnow : 0 < now) (hinv : runningInv s2) :
    (applyStartTimer s now).timer.startTime = some now
    ∧ (applyStartTimer s now).timer.endTime = some (now + s.totalDurationMs)
    ∧ (applyStartTimer s now).timer.status = TimerStatus.RUNNING
    ∧ runningInv (applyStartTimer s now)
    ∧ runningInv (saveDuration s2)
    ∧ (saveDuration s2).timer.startTime = s2.timer.startTime :=
  ⟨rfl, rfl, rfl,
   fun _ => ⟨now, hnow, rfl, rfl⟩,
   saveDuration_runningInv s2 hinv,
   saveDuration_startTime s2⟩

/-- C2 witness: starting at time 5 with an 8-hour configuration and then
reconfiguring a concrete Running state (startTime 7, duration 1000,
inputs 1h30m) keeps the invariant and leaves `startTime` untouched. -/
theorem running_duration_invariant_wit :
    (applyStartTimer
        ⟨28800000, ⟨none, none, TimerStatus.LISTENING⟩, 0, false, false, false, false, 8, 0, none⟩
        5).timer.startTime = some 5
    ∧ (applyStartTimer
        ⟨28800000, ⟨none, none, TimerStatus.LISTENING⟩, 0, false, false, false, false, 8, 0, none⟩
        5).timer.endTime = some (5 + 28800000)
    ∧ (applyStartTimer
        ⟨28800000, ⟨none, none, TimerStatus.LISTENING⟩, 0, false, false, false, false, 8, 0, none⟩
        5).timer.status = TimerStatus.RUNNING
    ∧ runningInv (applyStartTimer
        ⟨28800000, ⟨none, none, TimerStatus.LISTENING⟩, 0, false, false, false, false, 8, 0, none⟩
        5)
    ∧ runningInv (saveDuration
        ⟨1000, ⟨some 7, some 1007, TimerStatus.RUNNING⟩, 900, true, true, false, true, 1, 30, none⟩)
    ∧ (saveDuration
        ⟨1000, ⟨some 7, some 1007, TimerStatus.RUNNING⟩, 900, true, true, false, true, 1, 30, none⟩).timer.startTime
      = (⟨1000, ⟨some 7, some 1007, TimerStatus.RUNNING⟩, 900, true, true, false, true, 1, 30, none⟩ : AppState).timer.startTime :=
  running_duration_invariant
    ⟨28800000, ⟨none, none, TimerStatus.LISTENING⟩, 0, false, false, false, false, 8, 0, none⟩
    ⟨1000, ⟨some 7, some 1007, TimerStatus.RUNNING⟩, 900, true, true, false, true, 1, 30, none⟩
    5 (by decide) (fun _ => ⟨7, by decide, rfl, rfl⟩)

/-! ## C10 -/

/-- C10: invoking `saveDuration` with a positive computed duration while
the status is `IDLE`, `LISTENING` or `FINISHED` updates `totalDurationMs`
but leaves the `TimerState` triple unchanged; and in every state
`saveDuration` leaves `startTime` and `status` untouched. -/
theorem saveDuration_frame (s s2 : AppState)
    (hpos : 0 < newDurationMs s)
    (hst : s.timer.status = TimerStatus.IDLE ∨ s.timer.status = TimerStatus.LISTENING
           ∨ s.timer.status = TimerStatus.FINISHED) :
    (saveDuration s).totalDurationMs = newDurationMs s
    ∧ (saveDuration s).timer = s.timer
    ∧ (saveDuration s2).timer.startTime = s2.timer.startTime
    ∧ (saveDuration s2).timer.status = s2.timer.status := by
  have hnotrun : ¬ (s.timer.status = TimerStatus.RUNNING
      ∧ numTruthy s.timer.startTime = true) := by
    rintro ⟨hrun, -⟩
    rcases hst with h | h | h <;> rw [hrun] at h <;> exact absurd h (by decide)
  refine ⟨?_, ?_, saveDuration_startTime s2, saveDuration_status s2⟩ <;>
    · unfold saveDuration
      rw [if_pos hpos, if_neg hnotrun]

/-- C10 witness: a 2-hour reconfiguration from a concrete `FINISHED`
state (with historical timestamps still set) updates only
`totalDurationMs`; a concrete `RUNNING` state keeps its `startTime` and
`status` through `saveDuration`. -/
theorem saveDuration_frame_wit :
    (saveDuration
        ⟨28800000, ⟨some 3, some 40, TimerStatus.FINISHED⟩, 0, false, false, false, true, 2, 0, none⟩).totalDurationMs
      = newDurationMs
        ⟨28800000, ⟨some 3, some 40, TimerStatus.FINISHED⟩, 0, false, false, false, true, 2, 0, none⟩
    ∧ (saveDuration
        ⟨28800000, ⟨some 3, some 40, TimerStatus.FINISHED⟩, 0, false, false, false, true, 2, 0, none⟩).timer
      = (⟨28800000, ⟨some 3, some 40, TimerStatus.FINISHED⟩, 0, false, false, false, true, 2, 0, none⟩ : AppState).timer
    ∧ (saveDuration
        ⟨500, ⟨some 9, some 509, TimerStatus.RUNNING⟩, 100, true, true, false, true, 0, 45, none⟩).timer.startTime
      = (⟨500, ⟨some 9, some 509, TimerStatus.RUNNING⟩, 100, true, true, false, true, 0, 45, none⟩ : AppState).timer.startTime
    ∧ (saveDuration
        ⟨500, ⟨some 9, some 509, TimerStatus.RUNNING⟩, 100, true, true, false, true, 0, 45, none⟩).timer.status
      = (⟨500, ⟨some 9, some 509, TimerStatus.RUNNING⟩, 100, true, true, false, true, 0, 45, none⟩ : AppState).timer.status :=
  saveDuration_frame
    ⟨28800000, ⟨some 3, some 40, TimerStatus.FINISHED⟩, 0, false, false, false, true, 2, 0, none⟩
    ⟨500, ⟨some 9, some 509, TimerStatus.RUNNING⟩, 100, true, true, false, true, 0, 45, none⟩
    (by decide) (Or.inr (Or.inr rfl))

/-! ## C4 -/

/-- C4 counterexample: with an unchanged calendar day, a persisted
`zen_timer_state` whose `JSON.parse` throws makes the `useState`
initializer itself throw — startup crashes instead of reinitializing to
the Idle shape, refuting the claim at this concrete input. -/
theorem startup_unparseable_throws_cex :
    initTimer (some (Except.error ())) (some "Mon Jan 01 2024") "Mon Jan 01 2024" 1000
      = Except.error () := by
  unfold initTimer
  rw [if_neg (by simp)]

/-- C4 amended: at startup, with no day rollover pending, a persisted
`timer_state` that fails to parse makes the initializer throw (startup
crashes); a parsed state whose truthy `endTime` has already passed is
replaced by the Finished shape; and whenever the stored state parses,
the initializer never throws. -/
theorem startup_parse_behavior (lastDate : Option String) (today : String) (now : Int)
    (parsed parsed2 : TimerState) (e : Int)
    (hno : ¬ (strTruthy lastDate = true ∧ lastDate ≠ some today))
    (he : parsed.endTime = some e) (he0 : e ≠ 0) (hlt : e < now) :
    initTimer (some (Except.error ())) lastDate today now = Except.error ()
    ∧ initTimer (some (Except.ok parsed)) lastDate today now
        = Except.ok ⟨⟨none, none, TimerStatus.FINISHED⟩, none⟩
    ∧ ∃ r, initTimer (some (Except.ok parsed2)) lastDate today now = Except.ok r := by
  refine ⟨?_, ?_, ?_⟩
  · unfold initTimer
    rw [if_neg hno]
  · unfold initTimer
    rw [if_neg hno]
    simp only [he]
    rw [if_pos ⟨he0, hlt⟩]
  · unfold initTimer
    rw [if_neg hno]
    cases hp : parsed2.endTime with
    | none => exact ⟨⟨parsed2, none⟩, by simp [hp]⟩
    | some e2 =>
        by_cases hc : e2 ≠ 0 ∧ e2 < now
        · exact ⟨⟨⟨none, none, TimerStatus.FINISHED⟩, none⟩, by simp [hp, hc]⟩
        · exact ⟨⟨parsed2, none⟩, by simp [hp, hc]⟩

/-- C4 witness: on an unchanged day, an unparseable store crashes the
initializer, a parsed `RUNNING` state expired at time 10 observed at
time 100 is replaced by the Finished shape, and a parsed Idle-shaped
state is accepted without throwing. -/
theorem startup_parse_behavior_wit :
    initTimer (some (Except.error ())) (some "Tue Jan 02 2024") "Tue Jan 02 2024" 100
      = Except.error ()
    ∧ initTimer (some (Except.ok ⟨some 1, some 10, TimerStatus.RUNNING⟩))
        (some "Tue Jan 02 2024") "Tue Jan 02 2024" 100
      = Except.ok ⟨⟨none, none, TimerStatus.FINISHED⟩, none⟩
    ∧ ∃ r, initTimer (some (Except.ok ⟨none, none, TimerStatus.IDLE⟩))
        (some "Tue Jan 02 2024") "Tue Jan 02 2024" 100 = Except.ok r :=
  startup_parse_behavior (some "Tue Jan 02 2024") "Tue Jan 02 2024" 100
    ⟨some 1, some 10, TimerStatus.RUNNING⟩ ⟨none, none, TimerStatus.IDLE⟩ 10
    (by simp) rfl (by decide) (by decide)

/-! ## C5 -/

/-- C5 counterexample: `startTimer` has no status guard — invoked from a
concrete `RUNNING` state it rewrites the `TimerState` and dispatches
session-start effects, refuting the claimed no-op. -/
theorem startTimer_not_guarded_cex :
    (applyStartTimer
        ⟨28800000, ⟨some 1, some 28800001, TimerStatus.RUNNING⟩, 5, true, true, true, false, 8, 0, none⟩
        100).timer
      ≠ ⟨some 1, some 28800001, TimerStatus.RUNNING⟩
    ∧ startTimerEvents
        ⟨28800000, ⟨some 1, some 28800001, TimerStatus.RUNNING⟩, 5, true, true, true, false, 8, 0, none⟩
      ≠ [] := by
  constructor <;> decide

/-- C5 amended: `startTimer` is unguarded — invoked in any status it
unconditionally starts a fresh session (`startTime = now`,
`endTime = now + totalDurationMs`, status `RUNNING`), dispatches the
wake-lock request, and fires the session-start notification exactly when
notifications are enabled; exactly-once delivery relies on the activity
listener being attached only while `LISTENING`, not on a guard inside
`startTimer`. -/
theorem startTimer_unconditional (s : AppState) (now : Int) :
    (applyStartTimer s now).timer
      = ⟨some now, some (now + s.totalDurationMs), TimerStatus.RUNNING⟩
    ∧ Ev.wakeLockRequest ∈ startTimerEvents s
    ∧ (Ev.notify "WorkDay Zen Started" ∈ startTimerEvents s
        ↔ s.notificationsEnabled = true) := by
  refine ⟨rfl, List.mem_cons_self _ _, ?_⟩
  cases h : s.notificationsEnabled <;> simp [startTimerEvents, h]

/-! ## C6 -/

theorem dispatchAll_unattached (evs : List (ActivityClass × Int)) (ls : ListenerState)
    (h : ls.attached = false) : dispatchAll ls evs = ls := by
  induction evs with
  | nil => rfl
  | cons ev rest ih =>
      show dispatchAll (dispatchActivity ls ev) rest = ls
      rw [dispatchActivity, if_neg (by simp [h]), ih]

/-- C6: while the listeners are attached (the `LISTENING` state), the
first activity event of any observed class invokes `startTimer` exactly
once and detaches all activity listeners; every later event of the
delivered sequence, and any event delivered while detached, is a no-op
and never triggers a second `startTimer`. -/
theorem activity_start_exactly_once (ls ls2 : ListenerState)
    (ev0 : ActivityClass × Int) (rest : List (ActivityClass × Int))
    (ev2 : ActivityClass × Int)
    (hatt : ls.attached = true) (_hlist : ls.app.timer.status = TimerStatus.LISTENING)
    (hdet : ls2.attached = false) :
    (dispatchAll ls (ev0 :: rest)).startCount = ls.startCount + 1
    ∧ (dispatchAll ls (ev0 :: rest)).attached = false
    ∧ (dispatchAll ls (ev0 :: rest)).app = applyStartTimer ls.app ev0.2
    ∧ dispatchActivity ls2 ev2 = ls2 := by
  have h1 : dispatchActivity ls ev0 = handleActivity ls ev0.2 := by
    rw [dispatchActivity, if_pos hatt]
  have h2 : dispatchAll ls (ev0 :: rest) = handleActivity ls ev0.2 := by
    show dispatchAll (dispatchActivity ls ev0) rest = _
    rw [h1, dispatchAll_unattached rest _ rfl]
  refine ⟨?_, ?_, ?_, ?_⟩
  · rw [h2]; rfl
  · rw [h2]; rfl
  · rw [h2]; rfl
  · rw [dispatchActivity, if_neg (by simp [hdet])]

/-- C6 witness: from a concrete attached `LISTENING` state, a pointer
move followed by a key press and a touch start in the same sequence
yields exactly one `startTimer` invocation, taken at the first event's
timestamp, and a detached listener; an event arriving while detached
changes nothing. -/
theorem activity_start_exactly_once_wit :
    (dispatchAll
        ⟨true, ⟨28800000, ⟨none, none, TimerStatus.LISTENING⟩, 0, false, false, false, false, 8, 0, none⟩, 0⟩
        [(ActivityClass.mousemove, 11), (ActivityClass.keydown, 12), (ActivityClass.touchstart, 13)]).startCount
      = 0 + 1
    ∧ (dispatchAll
        ⟨true, ⟨28800000, ⟨none, none, TimerStatus.LISTENING⟩, 0, false, false, false, false, 8, 0, none⟩, 0⟩
        [(ActivityClass.mousemove, 11), (ActivityClass.keydown, 12), (ActivityClass.touchstart, 13)]).attached
      = false
    ∧ (dispatchAll
        ⟨true, ⟨28800000, ⟨none, none, TimerStatus.LISTENING⟩, 0, false, false, false, false, 8, 0, none⟩, 0⟩
        [(ActivityClass.mousemove, 11), (ActivityClass.keydown, 12), (ActivityClass.touchstart, 13)]).app
      = applyStartTimer
          ⟨28800000, ⟨none, none, TimerStatus.LISTENING⟩, 0, false, false, false, false, 8, 0, none⟩ 11
    ∧ dispatchActivity
        ⟨false, ⟨28800000, ⟨some 11, some 28800011, TimerStatus.RUNNING⟩, 0, true, true, false, false, 8, 0, none⟩, 1⟩
        (ActivityClass.mousedown, 14)
      = ⟨false, ⟨28800000, ⟨some 11, some 28800011, TimerStatus.RUNNING⟩, 0, true, true, false, false, 8, 0, none⟩, 1⟩ :=
  activity_start_exactly_once
    ⟨true, ⟨28800000, ⟨none, none, TimerStatus.LISTENING⟩, 0, false, false, false, false, 8, 0, none⟩, 0⟩
    ⟨false, ⟨28800000, ⟨some 11, some 28800011, TimerStatus.RUNNING⟩, 0, true, true, false, false, 8, 0, none⟩, 1⟩
    (ActivityClass.mousemove, 11)
    [(ActivityClass.keydown, 12), (ActivityClass.touchstart, 13)]
    (ActivityClass.mousedown, 14)
    rfl rfl rfl

/-! ## C8 -/

/-- C8 counterexample: with a missing credential (an empty API key after
the falsy-coalescing chain), the second version of `getWorkdayTip`
returns the "Ready to Work?" pair, not the claimed fixed fallback
pair — even when the external lookup would have failed. -/
theorem getWorkdayTip_missing_key_cex :
    getWorkdayTipV2 "" (Except.error ()) = noKeyTip
    ∧ noKeyTip ≠ fallbackTip := by
  constructor
  · rfl
  · decide

/-- C8 amended: both versions of `getWorkdayTip` are total (the caller
never observes a rejection); on a failing external lookup — network
failure or malformed response — the first version, and the second
version with a non-empty key, return the fixed
`{Stay Focused, Remember to take short breaks and stay hydrated
throughout your journey.}` pair; with a missing credential the second
version instead short-circuits to the distinct
`{Ready to Work?, Start your timer and stay focused on your goals
today.}` pair, whatever the lookup would have produced. -/
theorem getWorkdayTip_fallback_behavior (k : String) (r : Except Unit ProductivityTip) :
    getWorkdayTipV1 (Except.error ()) = fallbackTip
    ∧ getWorkdayTipV2 k (Except.error ())
        = (if k = "" then noKeyTip else fallbackTip)
    ∧ getWorkdayTipV2 "" r = noKeyTip := by
  refine ⟨rfl, ?_, rfl⟩
  unfold getWorkdayTipV2
  split <;> rfl

/-! ## C9 -/

/-- C9 counterexample: in the concrete `startTimer` transition below
(notifications enabled), the wake-lock request and the session-start
notification are both dispatched strictly before the persistence write —
refuting the claim that the persistence write happens before any
side-effect dispatch. -/
theorem persist_after_side_effects_cex :
    Ev.wakeLockRequest ∈ startTimerTrace
        ⟨28800000, ⟨none, none, TimerStatus.LISTENING⟩, 0, false, false, true, false, 8, 0, none⟩ 5
    ∧ Ev.notify "WorkDay Zen Started" ∈ startTimerTrace
        ⟨28800000, ⟨none, none, TimerStatus.LISTENING⟩, 0, false, false, true, false, 8, 0, none⟩ 5
    ∧ Ev.persistWrite ∈ startTimerTrace
        ⟨28800000, ⟨none, none, TimerStatus.LISTENING⟩, 0, false, false, true, false, 8, 0, none⟩ 5
    ∧ (startTimerTrace
        ⟨28800000, ⟨none, none, TimerStatus.LISTENING⟩, 0, false, false, true, false, 8, 0, none⟩ 5).indexOf
        Ev.wakeLockRequest
      < (startTimerTrace
        ⟨28800000, ⟨none, none, TimerStatus.LISTENING⟩, 0, false, false, true, false, 8, 0, none⟩ 5).indexOf
        Ev.persistWrite
    ∧ (startTimerTrace
        ⟨28800000, ⟨none, none, TimerStatus.LISTENING⟩, 0, false, false, true, false, 8, 0, none⟩ 5).indexOf
        (Ev.notify "WorkDay Zen Started")
      < (startTimerTrace
        ⟨28800000, ⟨none, none, TimerStatus.LISTENING⟩, 0, false, false, true, false, 8, 0, none⟩ 5).indexOf
        Ev.persistWrite := by
  refine ⟨?_, ?_, ?_, ?_, ?_⟩ <;> decide

/-- C9 amended: within a `startTimer` transition, the wake-lock request
(and the notification, exactly when notifications are enabled) is
dispatched synchronously inside the handler, before the in-memory state
commit; the persistence write runs in the `[timer]` effect after the
commit — so persistence happens after the state mutation but after, not
before, the side-effect dispatch, and an observer polling storage can
see the pre-transition state while those side effects have already
fired. -/
theorem persist_write_ordering (s : AppState) (now : Int) :
    (startTimerTrace s now).indexOf Ev.wakeLockRequest
      < (startTimerTrace s now).indexOf Ev.stateCommit
    ∧ (startTimerTrace s now).indexOf Ev.stateCommit
      < (startTimerTrace s now).indexOf Ev.persistWrite
    ∧ (Ev.notify "WorkDay Zen Started" ∈ startTimerTrace s now
        ↔ s.notificationsEnabled = true)
    ∧ (if s.notificationsEnabled = true then
        (startTimerTrace s now).indexOf (Ev.notify "WorkDay Zen Started")
          < (startTimerTrace s now).indexOf Ev.stateCommit
      else Ev.notify "WorkDay Zen Started" ∉ startTimerTrace s now) := by
  cases h : s.notificationsEnabled <;>
    · simp only [startTimerTrace, startTimerTurn, startTimerEvents, h]
      refine ⟨?_, ?_, ?_, ?_⟩ <;> simp

end WorkDayZen
